import Mathlib

/-!
Verification of the data ingestion and normalization pipeline of the
parkrun-theme-map repository: the WKT coordinate parser, the three dataset
normalization paths (remote parkrun feed, static WKT literal list, CSV rows),
the fetch fallback behaviour, and the visible-marker computation.

JavaScript strings are modelled as `List Char` (or Lean `String` converted via
`toList`), JavaScript numbers as `JsNum` (NaN, signed infinity, or an exact
decimal value — no arithmetic beyond decimal parsing occurs in the code, so
exact decimals are a faithful value model), and possibly-`undefined` values
as `Option`.
-/

namespace ParkrunThemeMap

/-- An exact decimal value `num / 10 ^ exp10`. The code performs no
arithmetic on coordinates beyond decimal parsing, so this represents every
JavaScript number the program manipulates exactly; values produced by the
same literal text always share one representation. -/
structure Decimal where
  num : Int
  exp10 : Nat
deriving DecidableEq

/-- The rational value of a `Decimal`. -/
def Decimal.toRat (d : Decimal) : ℚ := (d.num : ℚ) / (10 : ℚ) ^ d.exp10

/-- A JavaScript number as produced by `parseFloat`: `NaN`, `±Infinity`,
or a finite decimal value. -/
inductive JsNum where
  | nan : JsNum
  | inf : Bool → JsNum
  | num : Decimal → JsNum
deriving DecidableEq

/-- JavaScript `isNaN` on a `JsNum`. -/
def isNaN : JsNum → Bool
  | .nan => true
  | _ => false

/-- Decimal digits folded into a natural number. -/
def digitsVal (l : List Char) : Nat :=
  l.foldl (fun a c => a * 10 + (c.toNat - 48)) 0

/-- Leading optional sign of a JS numeric literal: returns (isNegative, rest). -/
def parseSign : List Char → (Bool × List Char)
  | '-' :: rest => (true, rest)
  | '+' :: rest => (false, rest)
  | l => (false, l)

/-- The unsigned significand of a JS `parseFloat` literal:
digits, optionally a decimal point with more digits; at least one digit
must be present, else no number is recognised. Returns the significand
digits as a natural number, the count of fraction digits, and the
unconsumed remainder. -/
def parseUnsigned (l : List Char) : Option (Nat × Nat × List Char) :=
  let intPart := l.takeWhile Char.isDigit
  let r1 := l.dropWhile Char.isDigit
  match r1 with
  | '.' :: r2 =>
    let fracPart := r2.takeWhile Char.isDigit
    let r3 := r2.dropWhile Char.isDigit
    if intPart = [] ∧ fracPart = [] then none
    else some (digitsVal intPart * 10 ^ fracPart.length + digitsVal fracPart, fracPart.length, r3)
  | _ =>
    if intPart = [] then none
    else some (digitsVal intPart, 0, r1)

/-- Optional exponent part following the significand: `e`/`E`, optional sign,
digits. An incomplete exponent (no digits) contributes nothing, as in JS
`parseFloat`, which takes the longest valid literal prefix. -/
def parseExponent (l : List Char) : Int :=
  match l with
  | e :: rest =>
    if e = 'e' ∨ e = 'E' then
      let (neg, r2) := parseSign rest
      let ds := r2.takeWhile Char.isDigit
      if ds = [] then 0
      else if neg then -(digitsVal ds : Int) else (digitsVal ds : Int)
    else 0
  | [] => 0

/-- `"Infinity"` as a character list. -/
def infinityChars : List Char := ['I', 'n', 'f', 'i', 'n', 'i', 't', 'y']

/-- JS `parseFloat` on a character list: skip leading whitespace, optional
sign, then `Infinity` or a decimal literal with optional exponent; `NaN`
when no numeric prefix exists. -/
def parseFloat (l : List Char) : JsNum :=
  let l1 := l.dropWhile Char.isWhitespace
  let (neg, l2) := parseSign l1
  if infinityChars.isPrefixOf l2 then .inf (!neg)
  else
    match parseUnsigned l2 with
    | none => .nan
    | some (m, f, rest) =>
      let sm : Int := if neg then -(m : Int) else (m : Int)
      match parseExponent rest with
      | .ofNat n => .num { num := sm * ((10 ^ n : Nat) : Int), exp10 := f }
      | .negSucc n => .num { num := sm, exp10 := f + (n + 1) }

/-- `parseFloat` on a Lean string. -/
def parseFloatS (s : String) : JsNum := parseFloat s.toList

/-- `parseFloat` applied to a possibly-`undefined` string:
`parseFloat(undefined)` is `NaN` in JS. -/
def parseFloatJs : Option String → JsNum
  | some s => parseFloatS s
  | none => .nan

/-- JS `String.prototype.split(sep)` for a single-character separator:
splits at every occurrence, keeping empty pieces. -/
def splitChar (sep : Char) : List Char → List (List Char)
  | [] => [[]]
  | c :: rest =>
    if c = sep then [] :: splitChar sep rest
    else
      match splitChar sep rest with
      | [] => [[c]]
      | t :: ts => (c :: t) :: ts

/-- The literal characters of `"POINT ("`, the fixed part of the regex
`/POINT \(([^\)]+)\)/`. -/
def pointOpen : List Char := ['P', 'O', 'I', 'N', 'T', ' ', '(']

/-- One attempt of the regex `/POINT \(([^\)]+)\)/` at the current position:
it succeeds when the text starts with `POINT (` followed by a nonempty run
of non-`)` characters and then a `)`, capturing the run. -/
def wktTryHere (l : List Char) : Option (List Char) :=
  if pointOpen.isPrefixOf l then
    let after := l.drop pointOpen.length
    let run := after.takeWhile (fun c => c != ')')
    if run ≠ [] ∧ after.drop run.length ≠ [] then some run else none
  else none

/-- The unanchored regex search `wkt.match(/POINT \(([^\)]+)\)/)`: tries
every start position left to right, returning the first capture. -/
def wktCapture : List Char → Option (List Char)
  | [] => none
  | c :: rest =>
    match wktTryHere (c :: rest) with
    | some cap => some cap
    | none => wktCapture rest

/-- The coordinate pair produced by `parseWKT`: JS object
`{longitude, latitude}`. -/
structure Coords where
  longitude : JsNum
  latitude : JsNum
deriving DecidableEq

/-- `coords[i]` fed to `parseFloat`: an out-of-range index is `undefined`
in JS and `parseFloat(undefined)` is `NaN`. -/
def coordNum (coords : List (List Char)) (i : Nat) : JsNum :=
  match coords.get? i with
  | some t => parseFloat t
  | none => .nan

/-- The `parseWKT` function of the map component: regex-match the text,
split the capture on single spaces, and `parseFloat` the first two pieces
as longitude and latitude; `null` when the regex does not match. -/
def parseWKT (wkt : List Char) : Option Coords :=
  match wktCapture wkt with
  | some cap =>
    let coords := splitChar ' ' cap
    some { longitude := coordNum coords 0, latitude := coordNum coords 1 }
  | none => none

/-- `parseWKT` on a Lean string. -/
def parseWKTS (s : String) : Option Coords := parseWKT s.toList

/-! ## Data model: normalized entities and raw source records -/

/-- The `ParkrunEvent` interface of the map component. -/
structure ParkrunEvent where
  id : Int
  name : String
  latitude : JsNum
  longitude : JsNum
  country : String
  region : String
  status : String
deriving DecidableEq

/-- The `ThemePark` interface of the map component; `state` is optional
(`none` models an absent/undefined field). -/
structure ThemePark where
  name : String
  latitude : JsNum
  longitude : JsNum
  country : String
  state : Option String
deriving DecidableEq

/-- A raw entry of the remote parkrun feed (`data.events` element); string
coordinate fields and the optional descriptive fields may be absent. -/
structure RawEvent where
  id : Int
  name : String
  latitude : Option String
  longitude : Option String
  country : Option String
  region : Option String
  status : Option String
deriving DecidableEq

/-- The decoded body of the remote parkrun feed: `data.events` may be
absent (`data.events?` in the code). -/
structure FeedData where
  events : Option (List RawEvent)
deriving DecidableEq

/-- An item of the static `themeParkData` literal list. -/
structure WKTItem where
  wkt : String
  name : String
  description : String
deriving DecidableEq

/-- A CSV row after header parsing: a JS object mapping column names to
string values, absent columns being `undefined`. -/
def Row : Type := String → Option String

/-! ## JS truthiness helpers -/

/-- JS truthiness of a possibly-`undefined` string: `undefined` and the
empty string are falsy. -/
def truthy : Option String → Bool
  | some s => s != ""
  | none => false

/-- JS `a || b` on possibly-`undefined` strings. -/
def jsOrS (a b : Option String) : Option String :=
  if truthy a then a else b

/-- JS `v || ''` unwrapped to a string: the value when truthy, else `''`. -/
def orEmptyStr (v : Option String) : String :=
  if truthy v then v.getD "" else ""

/-- JS `a || b` where the default `b` is a plain string (as in
`event.country || 'UK'`). -/
def jsOrStr (a : Option String) (b : String) : String :=
  match a with
  | some s => if s = "" then b else s
  | none => b

/-! ## Parkrun feed normalization (`fetchParkruns`) -/

/-- The per-entry transform of `fetchParkruns`: parse the coordinates and
default `country`/`region`/`status` to `'UK'`/`''`/`'active'`. -/
def normalizeEvent (e : RawEvent) : ParkrunEvent :=
  { id := e.id
    name := e.name
    latitude := parseFloatJs e.latitude
    longitude := parseFloatJs e.longitude
    country := jsOrStr e.country "UK"
    region := jsOrStr e.region ""
    status := jsOrStr e.status "active" }

/-- The success-path normalization of `fetchParkruns`:
`data.events?.map(...).filter(e => !isNaN(e.latitude) && !isNaN(e.longitude)) || []`. -/
def parkrunEvents (d : FeedData) : List ParkrunEvent :=
  match d.events with
  | some evs =>
    (evs.map normalizeEvent).filter
      (fun e => !(isNaN e.latitude) && !(isNaN e.longitude))
  | none => []

/-- The fixed built-in fallback list `sampleParkruns`. -/
def sampleParkruns : List ParkrunEvent :=
  [ { id := 1, name := "Bushy Park parkrun", latitude := .num ⟨514108, 4⟩,
      longitude := .num ⟨-3370, 4⟩, country := "UK", region := "London", status := "active" },
    { id := 2, name := "Wimbledon Common parkrun", latitude := .num ⟨514297, 4⟩,
      longitude := .num ⟨-2356, 4⟩, country := "UK", region := "London", status := "active" },
    { id := 3, name := "Hampstead Heath parkrun", latitude := .num ⟨515584, 4⟩,
      longitude := .num ⟨-1656, 4⟩, country := "UK", region := "London", status := "active" },
    { id := 4, name := "Birmingham parkrun", latitude := .num ⟨524862, 4⟩,
      longitude := .num ⟨-18904, 4⟩, country := "UK", region := "Midlands", status := "active" },
    { id := 5, name := "Manchester parkrun", latitude := .num ⟨534808, 4⟩,
      longitude := .num ⟨-22426, 4⟩, country := "UK", region := "North", status := "active" } ]

/-- Outcome of the remote fetch attempt: the promise rejects, or a response
arrives with an `ok` flag and a body whose JSON decoding may throw. -/
inductive FetchOutcome where
  | networkError : FetchOutcome
  | response : Bool → Except String FeedData → FetchOutcome

/-- Whether an outcome takes the `catch` path of `fetchParkruns`: network
error, non-`ok` status (the code throws), or a decode exception. -/
def isFailedFetch : FetchOutcome → Bool
  | .networkError => true
  | .response ok body =>
    !ok || (match body with | .error _ => true | .ok _ => false)

/-- `fetchParkruns` as a function of the fetch outcome: the resulting
dataset together with the count passed to `onParkrunCountChange`. On any
failure the fixed `sampleParkruns` list is substituted. -/
def fetchParkruns (o : FetchOutcome) : List ParkrunEvent × Nat :=
  match o with
  | .networkError => (sampleParkruns, sampleParkruns.length)
  | .response ok body =>
    if ok then
      match body with
      | .ok d =>
        let events := parkrunEvents d
        (events, events.length)
      | .error _ => (sampleParkruns, sampleParkruns.length)
    else (sampleParkruns, sampleParkruns.length)

/-! ## Static WKT literal list normalization (`parks` in the first variant) -/

/-- The per-item transform of the `parks` pipeline: parse the WKT text and
build a `ThemePark` with `country: 'International'`; `null` when the WKT
does not match. -/
def parkFromItem (item : WKTItem) : Option ThemePark :=
  match parseWKTS item.wkt with
  | none => none
  | some coords =>
    some { name := item.name, latitude := coords.latitude,
           longitude := coords.longitude, country := "International", state := none }

/-- `themeParkData.map(...).filter(park => park !== null)`. -/
def parks (data : List WKTItem) : List ThemePark :=
  (data.map parkFromItem).filterMap id

/-! ## CSV normalization (`fetchThemeParks`) -/

/-- The per-row transform of `fetchThemeParks`:
`name: row.name || row.Name || ''`, coordinates via
`parseFloat(row.latitude || row.Latitude || row.lat)` and
`parseFloat(row.longitude || row.Longitude || row.lng || row.lon)`,
`country: row.country || row.Country || ''`, `state: row.state || row.State || ''`. -/
def csvRowToPark (row : Row) : ThemePark :=
  { name := orEmptyStr (jsOrS (row "name") (row "Name"))
    latitude := parseFloatJs (jsOrS (row "latitude") (jsOrS (row "Latitude") (row "lat")))
    longitude := parseFloatJs (jsOrS (row "longitude")
      (jsOrS (row "Longitude") (jsOrS (row "lng") (row "lon"))))
    country := orEmptyStr (jsOrS (row "country") (row "Country"))
    state := some (orEmptyStr (jsOrS (row "state") (row "State"))) }

/-- The row filter of `fetchThemeParks`:
`park.name && !isNaN(park.latitude) && !isNaN(park.longitude)`. -/
def csvParks (rows : List Row) : List ThemePark :=
  (rows.map csvRowToPark).filter
    (fun p => p.name != "" && !(isNaN p.latitude) && !(isNaN p.longitude))

/-- First truthy value in a list of possibly-`undefined` strings. -/
def firstTruthy : List (Option String) → Option String
  | [] => none
  | v :: vs => if truthy v then v else firstTruthy vs

/-- Follows the spec's words for `parseTabularPoint` alias handling:
"extracts the first matching alias for each field" — the first alias in
the list whose column is present with a truthy value. -/
def aliasExtract (row : Row) (aliases : List String) : Option String :=
  firstTruthy (aliases.map row)

/-! ## Display controller -/

/-- A rendered marker: the `L.marker([lat, lng])` position together with the
data interpolated into its popup. -/
structure Marker where
  latitude : JsNum
  longitude : JsNum
  popup : List String
deriving DecidableEq

/-- Marker built for a parkrun event: position and the popup's interpolated
name, region-country line and status line. -/
def parkrunMarker (p : ParkrunEvent) : Marker :=
  { latitude := p.latitude, longitude := p.longitude,
    popup := [p.name, p.region ++ ", " ++ p.country, "Status: " ++ p.status] }

/-- Marker built for a theme park: position and the popup's interpolated
name and state-country line (`${park.state ? park.state + ', ' : ''}${park.country}`). -/
def themeParkMarker (t : ThemePark) : Marker :=
  { latitude := t.latitude, longitude := t.longitude,
    popup := [t.name,
      (match t.state with
       | some s => if s != "" then s ++ ", " else ""
       | none => "") ++ t.country] }

/-- The visible marker set determined by the two marker effects: each layer
group holds its dataset's markers when its flag is true and is cleared
otherwise; the parkrun layer precedes the theme-park layer. -/
def computeVisibleMarkers (showParkruns showThemeParks : Bool)
    (parkruns : List ParkrunEvent) (themeParks : List ThemePark) : List Marker :=
  (if showParkruns then parkruns.map parkrunMarker else []) ++
  (if showThemeParks then themeParks.map themeParkMarker else [])

/-- The toggle handlers of `Index.tsx`: `setShowParkruns(!showParkruns)`. -/
def toggleFlag (b : Bool) : Bool := !b

/-! ## Auxiliary predicate and concrete inputs used by the theorems -/

/-- Whether `pat` occurs as a contiguous subsequence of the text (the
anchoring condition of an unanchored regex search). -/
def containsSeq (pat : List Char) : List Char → Bool
  | [] => pat.isPrefixOf ([] : List Char)
  | c :: rest => pat.isPrefixOf (c :: rest) || containsSeq pat rest

/-- The scenario row of the spec: `{Name: "X Park", Latitude: "10.5",
Longitude: "-20.25", Country: "Z"}`. -/
def rowC7 : Row := fun k =>
  if k = "Name" then some "X Park"
  else if k = "Latitude" then some "10.5"
  else if k = "Longitude" then some "-20.25"
  else if k = "Country" then some "Z"
  else none

/-- A row using the all-caps column `NAME`, not among the accepted aliases. -/
def rowC6Upper : Row := fun k =>
  if k = "NAME" then some "X Park"
  else if k = "latitude" then some "1"
  else if k = "longitude" then some "2"
  else none

/-- The same row with the canonical lower-case `name` column. -/
def rowC6Lower : Row := fun k =>
  if k = "name" then some "X Park"
  else if k = "latitude" then some "1"
  else if k = "longitude" then some "2"
  else none

/-- A well-formed row with a non-empty name, for instantiating the
CSV-path theorems. -/
def rowC4 : Row := fun k =>
  if k = "name" then some "Y Park"
  else if k = "latitude" then some "3"
  else if k = "longitude" then some "4"
  else none

/-- A feed body with one well-formed event, for instantiating the
feed-path theorems. -/
def feedW : FeedData :=
  ⟨some [{ id := 7, name := "Ok run", latitude := some "1.5", longitude := some "2.5",
           country := none, region := none, status := none }]⟩

/-- A raw feed entry with `country`, `region` and `status` all absent. -/
def rawW : RawEvent :=
  { id := 9, name := "E", latitude := some "1", longitude := some "2",
    country := none, region := none, status := none }

/-! ## Helper lemmas -/

lemma isPrefixOf_append_self (l t : List Char) : l.isPrefixOf (l ++ t) = true := by
  induction l with
  | nil => cases t <;> rfl
  | cons c cs ih => simp [List.isPrefixOf, ih]

lemma takeWhile_all {p : Char → Bool} :
    ∀ l : List Char, (∀ c ∈ l, p c = true) → l.takeWhile p = l
  | [], _ => rfl
  | c :: rest, h => by
    have hc : p c = true := h c (List.mem_cons_self c rest)
    have ih := takeWhile_all rest (fun d hd => h d (List.mem_cons_of_mem _ hd))
    simp [List.takeWhile_cons, hc, ih]

lemma takeWhile_append_stop {p : Char → Bool} {stop : Char} (hs : p stop = false) :
    ∀ l1 l2 : List Char, (∀ c ∈ l1, p c = true) →
      (l1 ++ stop :: l2).takeWhile p = l1
  | [], l2, _ => by simp [List.takeWhile_cons, hs]
  | c :: cs, l2, h => by
    have hc : p c = true := h c (List.mem_cons_self c cs)
    have ih := takeWhile_append_stop hs cs l2 (fun d hd => h d (List.mem_cons_of_mem _ hd))
    simp [List.takeWhile_cons, hc, ih]

lemma splitChar_not_mem (sep : Char) : ∀ l : List Char, sep ∉ l → splitChar sep l = [l]
  | [], _ => rfl
  | c :: cs, h => by
    have hc : ¬(c = sep) := fun hh => h (hh ▸ List.mem_cons_self c cs)
    have ih := splitChar_not_mem sep cs (fun hm => h (List.mem_cons_of_mem _ hm))
    simp [splitChar, hc, ih]

lemma splitChar_append (sep : Char) (l2 : List Char) :
    ∀ l1 : List Char, sep ∉ l1 →
      splitChar sep (l1 ++ sep :: l2) = l1 :: splitChar sep l2
  | [], _ => by simp [splitChar]
  | c :: cs, h => by
    have hc : ¬(c = sep) := fun hh => h (hh ▸ List.mem_cons_self c cs)
    have ih := splitChar_append sep l2 cs (fun hm => h (List.mem_cons_of_mem _ hm))
    simp [splitChar, hc, ih]

lemma wktCapture_of_tryHere_some {w cap : List Char} (hw : w ≠ [])
    (h : wktTryHere w = some cap) : wktCapture w = some cap := by
  cases w with
  | nil => exact absurd rfl hw
  | cons c rest =>
    simp only [wktCapture]
    rw [h]

lemma bne_true_of_ne {c d : Char} (h : c ≠ d) : (c != d) = true := by
  simpa using h

lemma wktTryHere_none_of_no_close {l : List Char} (h : ')' ∉ l) : wktTryHere l = none := by
  by_cases hp : pointOpen.isPrefixOf l
  · have hafter : ∀ c ∈ l.drop pointOpen.length, (c != ')') = true := by
      intro c hc
      exact bne_true_of_ne (fun hEq => h (hEq ▸ List.mem_of_mem_drop hc))
    have hrun : (l.drop pointOpen.length).takeWhile (fun c => c != ')') =
        l.drop pointOpen.length := takeWhile_all _ hafter
    simp only [wktTryHere, hp, hrun, List.drop_length]
    simp
  · simp [wktTryHere, hp]

lemma wktCapture_none_of_no_close : ∀ w : List Char, ')' ∉ w → wktCapture w = none
  | [], _ => rfl
  | c :: rest, h => by
    simp only [wktCapture]
    rw [wktTryHere_none_of_no_close h]
    exact wktCapture_none_of_no_close rest (fun hm => h (List.mem_cons_of_mem _ hm))

lemma wktTryHere_none_of_not_prefixed {l : List Char}
    (h : pointOpen.isPrefixOf l = false) : wktTryHere l = none := by
  simp [wktTryHere, h]

lemma wktCapture_none_of_not_contains :
    ∀ w : List Char, containsSeq pointOpen w = false → wktCapture w = none
  | [], _ => rfl
  | c :: rest, h => by
    have h' : pointOpen.isPrefixOf (c :: rest) = false ∧ containsSeq pointOpen rest = false := by
      simpa [containsSeq] using h
    simp only [wktCapture]
    rw [wktTryHere_none_of_not_prefixed h'.1]
    exact wktCapture_none_of_not_contains rest h'.2

lemma parseFloatJs_falsy {v : Option String} (h : truthy v = false) : parseFloatJs v = .nan := by
  cases v with
  | none => rfl
  | some s =>
    have hs : s = "" := by simpa [truthy] using h
    subst hs
    decide

lemma orEmptyStr_pair (a b : Option String) :
    orEmptyStr (jsOrS a b) = (firstTruthy [a, b]).getD "" := by
  cases ha : truthy a with
  | true => simp [orEmptyStr, jsOrS, firstTruthy, ha]
  | false =>
    cases hb : truthy b with
    | true => simp [orEmptyStr, jsOrS, firstTruthy, ha, hb]
    | false => simp [orEmptyStr, jsOrS, firstTruthy, ha, hb]

lemma parseFloatJs_none : parseFloatJs none = .nan := rfl

lemma parseFloatJs_chain3 (a b c : Option String) :
    parseFloatJs (jsOrS a (jsOrS b c)) = parseFloatJs (firstTruthy [a, b, c]) := by
  cases ha : truthy a <;> cases hb : truthy b <;> cases hc : truthy c <;>
      simp [jsOrS, firstTruthy, ha, hb, hc]
  rw [parseFloatJs_falsy hc, parseFloatJs_none]

lemma parseFloatJs_chain4 (a b c d : Option String) :
    parseFloatJs (jsOrS a (jsOrS b (jsOrS c d))) =
      parseFloatJs (firstTruthy [a, b, c, d]) := by
  cases ha : truthy a <;> cases hb : truthy b <;> cases hc : truthy c <;>
      cases hd : truthy d <;>
    simp [jsOrS, firstTruthy, ha, hb, hc, hd]
  rw [parseFloatJs_falsy hd, parseFloatJs_none]

/-! ## Claim theorems -/

/-- C1: for every well-formed WKT input `"POINT (x y)"` whose tokens `x` and
`y` parse as numbers, `parseWKT` returns the pair with longitude the first
token's value and latitude the second token's value. -/
theorem parseWKT_wellformed_point (sx sy : List Char) (dx dy : Decimal)
    (hx : parseFloat sx = .num dx) (hy : parseFloat sy = .num dy)
    (hxs : ' ' ∉ sx) (hxc : ')' ∉ sx) (hys : ' ' ∉ sy) (hyc : ')' ∉ sy) :
    parseWKT (pointOpen ++ (sx ++ ' ' :: (sy ++ [')']))) =
      some { longitude := .num dx, latitude := .num dy } := by
  have hassoc : sx ++ ' ' :: (sy ++ [')']) = (sx ++ ' ' :: sy) ++ [')'] := by simp
  have hpre : pointOpen.isPrefixOf (pointOpen ++ (sx ++ ' ' :: (sy ++ [')']))) = true :=
    isPrefixOf_append_self _ _
  have hdrop : (pointOpen ++ (sx ++ ' ' :: (sy ++ [')']))).drop pointOpen.length =
      sx ++ ' ' :: (sy ++ [')']) := List.drop_left _ _
  have hall : ∀ c ∈ sx ++ ' ' :: sy, (c != ')') = true := by
    intro c hc
    rcases List.mem_append.mp hc with h1 | h2
    · exact bne_true_of_ne (fun hEq => hxc (hEq ▸ h1))
    · rcases List.mem_cons.mp h2 with h3 | h4
      · subst h3; decide
      · exact bne_true_of_ne (fun hEq => hyc (hEq ▸ h4))
  have htake : (sx ++ ' ' :: (sy ++ [')'])).takeWhile (fun c => c != ')') =
      sx ++ ' ' :: sy := by
    rw [hassoc]
    exact takeWhile_append_stop (by decide) _ [] hall
  have hdrop2 : (sx ++ ' ' :: (sy ++ [')'])).drop (sx ++ ' ' :: sy).length = [')'] := by
    rw [hassoc]
    exact List.drop_left _ _
  have htry : wktTryHere (pointOpen ++ (sx ++ ' ' :: (sy ++ [')'])))
      = some (sx ++ ' ' :: sy) := by
    simp only [wktTryHere, hpre, if_true, hdrop, htake, hdrop2]
    simp
  have hcap : wktCapture (pointOpen ++ (sx ++ ' ' :: (sy ++ [')'])))
      = some (sx ++ ' ' :: sy) :=
    wktCapture_of_tryHere_some (by simp [pointOpen]) htry
  have hsplit : splitChar ' ' (sx ++ ' ' :: sy) = [sx, sy] := by
    rw [splitChar_append ' ' sy sx hxs, splitChar_not_mem ' ' sy hys]
  simp only [parseWKT, hcap, hsplit, coordNum, List.get?]
  rw [hx, hy]

/-- C1 witness: `"POINT (10 20)"` parses to longitude 10 and latitude 20. -/
theorem parseWKT_wellformed_point_witness :
    parseWKT (pointOpen ++ (['1', '0'] ++ ' ' :: (['2', '0'] ++ [')']))) =
      some { longitude := .num ⟨10, 0⟩, latitude := .num ⟨20, 0⟩ } :=
  parseWKT_wellformed_point ['1', '0'] ['2', '0'] ⟨10, 0⟩ ⟨20, 0⟩
    (by decide) (by decide) (by decide) (by decide) (by decide) (by decide)

/-- C2 counterexample: the non-numeric-token input `"POINT (a b)"` does not
yield `None`; the parser returns a pair of NaN coordinates instead. -/
theorem parseWKT_nonnumeric_not_none :
    parseWKTS "POINT (a b)" = some { longitude := .nan, latitude := .nan } ∧
    parseWKTS "POINT (a b)" ≠ none := by decide

/-- C2 (amended): `parseWKT` returns `None` for input that lacks the
`POINT (...)` pattern — in particular when no `)` character occurs, or when
`POINT (` does not occur as a substring; inputs that match the pattern never
yield `None`, malformed tokens coming back as NaN components instead. -/
theorem parseWKT_none_of_missing_pattern (w : List Char) :
    (')' ∉ w → parseWKT w = none) ∧
    (containsSeq pointOpen w = false → parseWKT w = none) := by
  constructor
  · intro h
    simp [parseWKT, wktCapture_none_of_no_close w h]
  · intro h
    simp [parseWKT, wktCapture_none_of_not_contains w h]

/-- C2 witness: the paren-free inputs `"POINT 1 2"` and `"toint (1 2)"`
both yield `None`. -/
theorem parseWKT_none_of_missing_pattern_witness :
    parseWKT ("POINT 1 2".toList) = none ∧ parseWKT ("toint (1 2)".toList) = none :=
  ⟨(parseWKT_none_of_missing_pattern ("POINT 1 2".toList)).1 (by decide),
   (parseWKT_none_of_missing_pattern ("toint (1 2)".toList)).2 (by decide)⟩

/-- C3 counterexample: the WKT item `"POINT (200 100)"` has latitude 100 and
longitude 200, both outside the legal ranges, yet the record is kept by the
`parks` normalization. -/
theorem parks_keeps_out_of_range :
    parks [{ wkt := "POINT (200 100)", name := "P", description := "" }] =
      [{ name := "P", latitude := .num ⟨100, 0⟩, longitude := .num ⟨200, 0⟩,
         country := "International", state := none }] ∧
    (90 : ℚ) < (Decimal.mk 100 0).toRat ∧ (180 : ℚ) < (Decimal.mk 200 0).toRat := by
  refine ⟨by decide, ?_, ?_⟩ <;> norm_num [Decimal.toRat]

/-- C3 (amended): a record whose parsed latitude or longitude is NaN is
excluded from the parkrun-feed and CSV normalization paths; no path checks
coordinate ranges, and the WKT path drops only records whose WKT text fails
to match. -/
theorem nan_coordinates_filtered (d : FeedData) (rows : List Row) :
    (∀ e ∈ parkrunEvents d, isNaN e.latitude = false ∧ isNaN e.longitude = false) ∧
    (∀ p ∈ csvParks rows, isNaN p.latitude = false ∧ isNaN p.longitude = false) := by
  constructor
  · intro e he
    unfold parkrunEvents at he
    cases hev : d.events with
    | none => rw [hev] at he; cases he
    | some evs =>
      rw [hev] at he
      have hf := List.of_mem_filter he
      simp only [Bool.and_eq_true, Bool.not_eq_true'] at hf
      exact hf
  · intro p hp
    have hf := List.of_mem_filter hp
    simp only [Bool.and_eq_true, Bool.not_eq_true'] at hf
    exact ⟨hf.1.2, hf.2⟩

/-- C3 witness: the surviving event of a well-formed feed entry has non-NaN
coordinates. -/
theorem nan_coordinates_filtered_witness :
    isNaN (JsNum.num ⟨15, 1⟩) = false ∧ isNaN (JsNum.num ⟨25, 1⟩) = false :=
  (nan_coordinates_filtered feedW []).1
    { id := 7, name := "Ok run", latitude := .num ⟨15, 1⟩, longitude := .num ⟨25, 1⟩,
      country := "UK", region := "", status := "active" } (by decide)

/-- C4 counterexample: a WKT item with an empty name survives the `parks`
normalization, so empty-name records are not excluded on that path. -/
theorem parks_keeps_empty_name :
    parks [{ wkt := "POINT (1 2)", name := "", description := "" }] =
      [{ name := "", latitude := .num ⟨2, 0⟩, longitude := .num ⟨1, 0⟩,
         country := "International", state := none }] := by decide

/-- C4 (amended): only the CSV normalization path excludes empty-name
records: every park surviving `csvParks` has a non-empty name. -/
theorem csv_empty_name_filtered (rows : List Row) :
    ∀ p ∈ csvParks rows, p.name ≠ "" := by
  intro p hp
  have hf := List.of_mem_filter hp
  simp only [Bool.and_eq_true, bne_iff_ne, ne_eq] at hf
  exact hf.1.1

/-- C4 witness: the park surviving the row with name `"Y Park"` has a
non-empty name. -/
theorem csv_empty_name_filtered_witness :
    ({ name := "Y Park", latitude := .num ⟨3, 0⟩, longitude := .num ⟨4, 0⟩,
       country := "", state := some "" } : ThemePark).name ≠ "" :=
  csv_empty_name_filtered [rowC4] _ (by decide)

/-- C5: every failing fetch outcome — network error, non-success response
status, or a decode exception — makes `fetchParkruns` produce exactly the
fixed `sampleParkruns` fallback list and report the count 5. -/
theorem fetchParkruns_fallback (o : FetchOutcome) (h : isFailedFetch o = true) :
    fetchParkruns o = (sampleParkruns, 5) := by
  cases o with
  | networkError => rfl
  | response ok body =>
    cases ok with
    | false => rfl
    | true =>
      cases body with
      | ok d => simp [isFailedFetch] at h
      | error e => rfl

/-- C5 witness: a network error yields the fallback list and count 5. -/
theorem fetchParkruns_fallback_witness :
    fetchParkruns .networkError = (sampleParkruns, 5) :=
  fetchParkruns_fallback .networkError (by decide)

/-- C6 counterexample: the row keyed by the all-caps column `NAME` is
normalized differently from the identically-valued row keyed by `name`:
the former's record is dropped, the latter's kept, so alias matching is
not case-insensitive. -/
theorem csv_alias_not_case_insensitive :
    csvParks [rowC6Upper] = [] ∧
    csvParks [rowC6Lower] =
      [{ name := "X Park", latitude := .num ⟨1, 0⟩, longitude := .num ⟨2, 0⟩,
         country := "", state := some "" }] := by decide

/-- C6 (amended): column aliases are matched exactly (case-sensitively)
against the fixed lists name/Name, latitude/Latitude/lat,
longitude/Longitude/lng/lon, country/Country and state/State, the first
present alias with a non-empty value winning: `csvRowToPark` coincides with
the spec-worded first-matching-alias extraction over those exact lists. -/
theorem csvRowToPark_alias_exact (row : Row) :
    csvRowToPark row =
      { name := (aliasExtract row ["name", "Name"]).getD ""
        latitude := parseFloatJs (aliasExtract row ["latitude", "Latitude", "lat"])
        longitude := parseFloatJs (aliasExtract row ["longitude", "Longitude", "lng", "lon"])
        country := (aliasExtract row ["country", "Country"]).getD ""
        state := some ((aliasExtract row ["state", "State"]).getD "") } := by
  simp only [csvRowToPark, aliasExtract, List.map]
  rw [orEmptyStr_pair, orEmptyStr_pair, orEmptyStr_pair,
    parseFloatJs_chain3, parseFloatJs_chain4]

/-- C7: the spec's scenario row `{Name: "X Park", Latitude: "10.5",
Longitude: "-20.25", Country: "Z"}` normalizes to exactly the kept record
`{displayName: "X Park", latitude: 10.5, longitude: -20.25, country: "Z"}`
(with the empty `state` string the code always attaches). -/
theorem csv_scenario_row :
    csvParks [rowC7] =
      [{ name := "X Park", latitude := .num ⟨105, 1⟩, longitude := .num ⟨-2025, 2⟩,
         country := "Z", state := some "" }] ∧
    (Decimal.mk 105 1).toRat = 10.5 ∧ (Decimal.mk (-2025) 2).toRat = -20.25 := by
  refine ⟨by decide, ?_, ?_⟩ <;> norm_num [Decimal.toRat]

/-- C8: with both visibility flags false the computed visible marker set is
empty, whatever the datasets hold. -/
theorem computeVisibleMarkers_both_hidden (parkruns : List ParkrunEvent)
    (themeParks : List ThemePark) :
    computeVisibleMarkers false false parkruns themeParks = [] := rfl

/-- C9: toggling either visibility flag twice returns the computed visible
marker set to exactly its original value, for unchanged datasets. -/
theorem toggle_twice_restores (s1 s2 : Bool) (parkruns : List ParkrunEvent)
    (themeParks : List ThemePark) :
    computeVisibleMarkers (toggleFlag (toggleFlag s1)) s2 parkruns themeParks =
      computeVisibleMarkers s1 s2 parkruns themeParks ∧
    computeVisibleMarkers s1 (toggleFlag (toggleFlag s2)) parkruns themeParks =
      computeVisibleMarkers s1 s2 parkruns themeParks := by
  constructor <;> simp [toggleFlag]

/-- C10: for a feed entry with missing `country`, `region` or `status`, the
normalizer fills in `"UK"`, `""` and `"active"` respectively, so every
normalized record carries all three fields. -/
theorem normalizeEvent_defaults (e : RawEvent) :
    (e.country = none → (normalizeEvent e).country = "UK") ∧
    (e.region = none → (normalizeEvent e).region = "") ∧
    (e.status = none → (normalizeEvent e).status = "active") := by
  refine ⟨fun h => ?_, fun h => ?_, fun h => ?_⟩ <;> simp [normalizeEvent, jsOrStr, h]

/-- C10 witness: the entry `rawW`, which lacks all three fields, gets all
three defaults. -/
theorem normalizeEvent_defaults_witness :
    (normalizeEvent rawW).country = "UK" ∧ (normalizeEvent rawW).region = "" ∧
    (normalizeEvent rawW).status = "active" :=
  ⟨(normalizeEvent_defaults rawW).1 rfl, (normalizeEvent_defaults rawW).2.1 rfl,
   (normalizeEvent_defaults rawW).2.2 rfl⟩

end ParkrunThemeMap
